import Mathlib

/-!
Verification of the chat-assistant frontend (`src/App.jsx`): a shallow
embedding of the `fetchApi` helper, the widget input components, the
`OperationSelector`, and the `ChatInterface` dialogue controller
(`handleUserInput`, `renderDynamicComponent`), together with theorems
settling the specified behaviour of each.
-/

/-! ## JavaScript value model

JSON/JavaScript values as an inductive type.  Numbers are modelled as
rationals (the values the spec exercises are finite decimals; non-finite
IEEE values never arise in the claims). -/

inductive JsValue where
  | vNull : JsValue
  | vBool (b : Bool) : JsValue
  | vNum (q : ℚ) : JsValue
  | vStr (s : String) : JsValue
  | vArr (xs : List JsValue) : JsValue
  | vObj (fields : List (String × JsValue)) : JsValue
deriving Repr

/-- JavaScript truthiness of a value: `null`, `false`, `0`, and `""` are
falsy; every object and array is truthy. -/
def jsTruthy : JsValue → Bool
  | .vNull => false
  | .vBool b => b
  | .vNum q => !(q = 0)
  | .vStr s => !(s = "")
  | .vArr _ => true
  | .vObj _ => true

/-- Field lookup on a JavaScript object (`obj.field`); `none` models
`undefined` (missing field, or the value is not an object). -/
def getField : JsValue → String → Option JsValue
  | .vObj fields, name => (fields.find? (fun p => p.1 = name)).map Prod.snd
  | _, _ => none

/-- String coercion of a value, as used by template literals and
`Array.prototype.join`.  The spec only exercises string elements; the other
cases follow JavaScript's conversions for the primitive shapes. -/
def jsToString : JsValue → String
  | .vNull => "null"
  | .vBool b => if b then "true" else "false"
  | .vNum q => toString q
  | .vStr s => s
  | .vArr _ => ""
  | .vObj _ => "[object Object]"

/-! ## `fetchApi` (src/App.jsx lines 28-54)

`fetchApi` awaits `fetch`, and on a non-ok status builds an error detail
string from the response body's `detail` field and throws it; a 204 status
returns `null` without parsing a body; otherwise the parsed JSON body is
returned.  The HTTP response is modelled as a status plus the body's parsed
JSON (`none` when `response.json()` would reject). -/

structure HttpResponse where
  status : Nat
  /-- The JSON value `response.json()` resolves to, or `none` when the body
  is not parseable JSON (the promise rejects). -/
  body : Option JsValue
deriving Repr

/-- The `${err.loc?.join('.')}: ${err.msg}` template from line 37 of
`fetchApi`, applied to one element of an array-valued `detail`. -/
def formatErrItem (err : JsValue) : String :=
  let locStr := match getField err "loc" with
    | some (.vArr xs) => String.intercalate "." (xs.map jsToString)
    | _ => "undefined"
  let msgStr := match getField err "msg" with
    | some m => jsToString m
    | none => "undefined"
  locStr ++ ": " ++ msgStr

/-- The error detail computed by `fetchApi` for a non-ok response:
start from `API Error: <status>`; if the body parsed and carries a truthy
`detail`, use it; if `detail` is an array, map each element through the
loc/msg template and join with `"; "`. -/
def errorDetailOf (status : Nat) (body : Option JsValue) : String :=
  let base := "API Error: " ++ toString status
  match body with
  | none => base
  | some j =>
    match getField j "detail" with
    | some (.vArr items) => String.intercalate "; " (items.map formatErrItem)
    | some v => if jsTruthy v then jsToString v else base
    | none => base

/-- Model of `fetchApi`'s result: `.error detail` when the helper throws
`new Error(detail)`, `.ok data` when it returns (`data = none` models the
`null` returned for 204, and `.parseFailure` the rejection of
`response.json()` on an ok non-204 response with an unparseable body). -/
inductive FetchResult where
  | ok (data : Option JsValue) : FetchResult
  | error (detail : String) : FetchResult
  | parseFailure : FetchResult
deriving Repr

/-- Shallow embedding of `fetchApi` (lines 28-54): `response.ok` is status
200-299; non-ok throws the computed detail; 204 returns `null`; otherwise
the JSON body is returned. -/
def fetchApi (resp : HttpResponse) : FetchResult :=
  if ¬ (200 ≤ resp.status ∧ resp.status ≤ 299) then
    .error (errorDetailOf resp.status resp.body)
  else if resp.status = 204 then
    .ok none
  else
    match resp.body with
    | some j => .ok (some j)
    | none => .parseFailure

/-- Build the JSON object for one `{loc, msg}` pair of a `detail` array. -/
def mkLocMsg (p : List String × String) : JsValue :=
  .vObj [("loc", .vArr (p.1.map JsValue.vStr)), ("msg", .vStr p.2)]

/-- A response body whose `detail` field is an array of `{loc, msg}` pairs. -/
def detailArrayBody (pairs : List (List String × String)) : JsValue :=
  .vObj [("detail", .vArr (pairs.map mkLocMsg))]

/-! ## Chat data model (src/App.jsx lines 349-437)

The `ChatInterface` component's state hooks, the message log, and the
request/response shapes of the chat round trip. -/

inductive Sender where
  | user : Sender
  | assistant : Sender
deriving Repr, DecidableEq

/-- The widget descriptor carried by a `ui_instruction` (`ui_component`):
its `type` tag, `parameter_name`, and the optional presentation fields the
widget components read. -/
structure UiComponent where
  type : String
  parameter_name : String
  description : Option String := none
  placeholder : Option String := none
  options : Option (List String) := none
  item_type : Option String := none
deriving Repr, DecidableEq

/-- The object content of an assistant message: `{ prompt, ui_component }`.
`prompt = none` models a `null`/`undefined`/absent prompt. -/
structure InstructionContent where
  prompt : Option String
  ui_component : Option UiComponent
deriving Repr, DecidableEq

/-- A message's `content`: the plain string of a user message, the
instruction object of an assistant message, or `undefined` (when the code
appends `backendResponse.data` and `data` is missing). -/
inductive MsgContent where
  | text (s : String) : MsgContent
  | instr (c : InstructionContent) : MsgContent
  | undef : MsgContent
deriving Repr, DecidableEq

/-- One entry of the message log.  The source gives each message the id
`Date.now() + Math.random()`; ids are modelled by a per-state counter,
keeping them unique and increasing. -/
structure Message where
  id : Nat
  sender : Sender
  content : MsgContent
deriving Repr, DecidableEq

/-- The `{path, method}` pair carried by an intent input (`apiDetails`). -/
structure ApiDetails where
  path : String
  method : String
deriving Repr, DecidableEq

/-- One entry of the operation catalog fetched from the operations
endpoint. -/
structure Operation where
  id : String
  method : String
  path : String
  summary : String
deriving Repr, DecidableEq

/-- The `useState` hooks of `ChatInterface` (lines 351-356), plus the id
counter backing `addMessage`. -/
structure ChatState where
  messages : List Message
  isAssistantTyping : Bool
  currentInteractionDisabled : Bool
  availableOperations : List Operation
  fetchError : Option String
  currentApiOperation : Option ApiDetails
  nextMsgId : Nat
deriving Repr, DecidableEq

/-- `addMessage` (lines 382-385): append one message to the log under a
fresh id. -/
def addMessage (s : ChatState) (sender : Sender) (content : MsgContent) : ChatState :=
  { s with
    messages := s.messages ++ [{ id := s.nextMsgId, sender := sender, content := content }]
    nextMsgId := s.nextMsgId + 1 }

/-- The argument of `handleUserInput`: an intent (from the operation
selector) or a parameter submission (from a widget). -/
inductive UserInput where
  | intent (value : String) (apiDetails : Option ApiDetails) : UserInput
  | parameter (parameterName : String) (value : JsValue) : UserInput
deriving Repr

/-- The request body built for the chat endpoint (lines 405 and 407). -/
inductive RequestBody where
  | intentBody (user_id intent_string target_api_path target_api_method : String) : RequestBody
  | parameterBody (user_id parameter_name : String) (parameter_value : JsValue) : RequestBody
deriving Repr

/-- `USER_ID` (line 17). -/
def USER_ID : String := "ui_user_enh"

/-- The chat endpoint's response body as the code reads it: a `type` tag
plus the optional `data` (instruction) and `text` fields. -/
structure BackendResponse where
  type : String
  data : Option InstructionContent := none
  text : Option String := none
deriving Repr, DecidableEq

/-- How the awaited chat round trip resolves: with a parsed response body,
or by throwing (network failure, non-2xx status, or body parse failure);
`errMsg` is the thrown error's `.message`. -/
inductive NetOutcome where
  | success (resp : BackendResponse) : NetOutcome
  | failure (errMsg : String) : NetOutcome
deriving Repr

/-- The observable side effects of one `handleUserInput` run, in program
order: message appends, the input lock/unlock transitions
(`setCurrentInteractionDisabled`), the start of the network call, and its
resolution. -/
inductive Effect where
  | appendMsg (sender : Sender) (content : MsgContent) : Effect
  | lockInput : Effect
  | unlockInput : Effect
  | netCallStart (body : RequestBody) : Effect
  | netResolved : Effect
deriving Repr

/-- The guard of line 401: `!input.apiDetails || !input.apiDetails.path ||
!input.apiDetails.method` (an empty string is falsy). -/
def badApiDetails : Option ApiDetails → Bool
  | none => true
  | some d => d.path = "" || d.method = ""

/-- The apology text of line 402. -/
def unmappedIntentText (value : String) : String :=
  "Sorry, I couldn\'t map '" ++ value ++
    "' to a known API action. Please select from the list."

/-- The short-circuit branch for an unmappable intent (lines 402-403):
append the apology, stop typing, unlock input, clear the operation, and
return without any network call. -/
def unmappedIntentStep (value : String) (s : ChatState) (tr : List Effect) :
    ChatState × List Effect :=
  let content := MsgContent.instr { prompt := some (unmappedIntentText value), ui_component := none }
  let s := addMessage s .assistant content
  let s := { s with
    isAssistantTyping := false
    currentInteractionDisabled := false
    currentApiOperation := none }
  (s, tr ++ [.appendMsg .assistant content, .unlockInput])

/-- The `try`/`catch`/`finally` of lines 410-431, entered once the request
body is built: dispatch on the resolved response's `type`, or surface the
thrown error; the `finally` clears the typing flag in every branch.  The
`else` of line 422 is an empty comment in the source: the unknown-type
branch changes nothing besides the `finally`. -/
def resolveResponse (s : ChatState) (tr : List Effect) (outcome : NetOutcome) :
    ChatState × List Effect :=
  match outcome with
  | .success resp =>
    let tr := tr ++ [Effect.netResolved]
    if resp.type = "ui_instruction" then
      let content := match resp.data with
        | some c => MsgContent.instr c
        | none => MsgContent.undef
      let s := addMessage s .assistant content
      let s := { s with currentInteractionDisabled := false, isAssistantTyping := false }
      (s, tr ++ [.appendMsg .assistant content, .unlockInput])
    else if resp.type = "final_message" ∨ resp.type = "error_message" then
      let content := MsgContent.instr { prompt := resp.text, ui_component := none }
      let s := addMessage s .assistant content
      let s := { s with
        currentInteractionDisabled := false
        currentApiOperation := none
        isAssistantTyping := false }
      (s, tr ++ [.appendMsg .assistant content, .unlockInput])
    else
      ({ s with isAssistantTyping := false }, tr)
  | .failure errMsg =>
    let tr := tr ++ [Effect.netResolved]
    let content := MsgContent.instr { prompt := some ("Error: " ++ errMsg), ui_component := none }
    let s := addMessage s .assistant content
    let s := { s with
      currentInteractionDisabled := false
      currentApiOperation := none
      isAssistantTyping := false }
    (s, tr ++ [.appendMsg .assistant content, .unlockInput])

/-- Shallow embedding of `handleUserInput` (lines 388-432).  For an intent,
the user message is appended and `currentApiOperation` set first; then the
typing flag and the input lock are set and `fetchError` cleared; an intent
without a resolvable path/method short-circuits; otherwise the request body
is built, the network call starts, and `resolveResponse` handles how it
resolves. -/
def handleUserInput (input : UserInput) (s0 : ChatState) (outcome : NetOutcome) :
    ChatState × List Effect :=
  let (s1, tr1) :=
    match input with
    | .intent value apiDetails =>
      (({ addMessage s0 .user (.text value) with currentApiOperation := apiDetails }),
        [Effect.appendMsg .user (.text value)])
    | .parameter _ _ => (s0, [])
  let s2 := { s1 with
    isAssistantTyping := true
    currentInteractionDisabled := true
    fetchError := none }
  let tr2 := tr1 ++ [Effect.lockInput]
  match input with
  | .intent value apiDetails =>
    match apiDetails with
    | none => unmappedIntentStep value s2 tr2
    | some d =>
      if d.path = "" ∨ d.method = "" then unmappedIntentStep value s2 tr2
      else
        let body := RequestBody.intentBody USER_ID value d.path d.method
        resolveResponse s2 (tr2 ++ [.netCallStart body]) outcome
  | .parameter name v =>
    let body := RequestBody.parameterBody USER_ID name v
    resolveResponse s2 (tr2 ++ [.netCallStart body]) outcome

/-! ## Operation selection (src/App.jsx lines 317-346 and 472-484)

`ChatInterface` renders `OperationSelector` with
`disabled = isAssistantTyping || currentInteractionDisabled ||
!!currentApiOperation` and `onSelectOperation = handleUserInput`.  A
disabled `<select>` fires no change event, so selection is a no-op exactly
when that flag holds; otherwise `handleChange` looks the chosen id up in
the catalog and forwards an intent input. -/

def selectOperation (s : ChatState) (opId : String) (outcome : NetOutcome) :
    ChatState × List Effect :=
  if s.isAssistantTyping || s.currentInteractionDisabled || s.currentApiOperation.isSome then
    (s, [])
  else
    match s.availableOperations.find? (fun op => op.id = opId) with
    | none => (s, [])
    | some op =>
      handleUserInput
        (.intent op.summary (some { path := op.path, method := op.method })) s outcome

/-- A widget submission dispatched through `handleDynamicInputSubmit`
(lines 435-437).  Every widget component receives
`disabled = currentInteractionDisabled` (line 450) and suppresses its
submit control while disabled, so a submission while the input lock is held
is a no-op. -/
def widgetSubmit (s : ChatState) (parameterName : String) (value : JsValue)
    (outcome : NetOutcome) : ChatState × List Effect :=
  if s.currentInteractionDisabled then (s, [])
  else handleUserInput (.parameter parameterName value) s outcome

/-! ## `renderDynamicComponent` (src/App.jsx lines 440-465)

The pure rendering of one assistant message's content into prompt and input
nodes.  Rendering happens inside the message-list JSX and performs no state
update. -/

/-- What an assistant message's content renders to: a plain paragraph, the
`[Invalid Message Format]` marker, a prompt with no input, or a prompt plus
a widget node. -/
inductive WidgetNode where
  | textInput : WidgetNode
  | dropdown : WidgetNode
  | numberInput : WidgetNode
  | checkbox : WidgetNode
  | datePickerNative : WidgetNode
  | jsonInput : WidgetNode
  | datetimePicker : WidgetNode
  | tagsInput : WidgetNode
  /-- `(Unsupported UI type: <tag>)` — the `default` arm of the switch. -/
  | unsupported (tag : String) : WidgetNode
deriving Repr, DecidableEq

inductive RenderResult where
  | plainText (s : String) : RenderResult
  /-- The `[Invalid Message Format]` marker. -/
  | invalidFormat : RenderResult
  | promptOnly (prompt : Option String) : RenderResult
  | promptAndWidget (prompt : Option String) (w : WidgetNode) : RenderResult
deriving Repr

/-- The switch of lines 453-463 over `ui_component.type`. -/
def dispatchWidget (componentType : String) : WidgetNode :=
  if componentType = "text_input" then .textInput
  else if componentType = "dropdown" then .dropdown
  else if componentType = "number_input" then .numberInput
  else if componentType = "checkbox" then .checkbox
  else if componentType = "date_picker" then .datePickerNative
  else if componentType = "json_input" then .jsonInput
  else if componentType = "datetime_picker" then .datetimePicker
  else if componentType = "tags_input" then .tagsInput
  else .unsupported componentType

/-- Truthiness of an optional prompt string (`instructionContent.prompt`):
absent, `null`, and `""` are falsy. -/
def promptTruthy : Option String → Bool
  | none => false
  | some p => !(p = "")

/-- Shallow embedding of `renderDynamicComponent`: a string content renders
as a paragraph; a nullish content, or one with neither a truthy `prompt`
nor a `ui_component`, renders the invalid-format marker; otherwise the
optional prompt element is paired with the dispatched widget (or stands
alone).  The function is total and returns a value for every content — it
never throws and never drops the message. -/
def renderDynamicComponent : MsgContent → RenderResult
  | .text s => .plainText s
  | .undef => .invalidFormat
  | .instr c =>
    if !(promptTruthy c.prompt) && c.ui_component.isNone then .invalidFormat
    else
      let promptElement := if promptTruthy c.prompt then c.prompt else none
      match c.ui_component with
      | none => .promptOnly promptElement
      | some w => .promptAndWidget promptElement (dispatchWidget w.type)

/-! ## `ChatTagsInput` (src/App.jsx lines 248-313)

The tag-list widget: a staging text input plus a committed tag list.
Committed tags are strings or (for a numeric `item_type`) numbers. -/

/-- A committed tag value.  JavaScript `===`, as used by
`tags.includes(processedTag)`, is structural equality on same-typed
string/number values and false across types, which is exactly `=` here. -/
inductive Tag where
  | str (s : String) : Tag
  | num (q : ℚ) : Tag
deriving Repr, DecidableEq

/-- Value of a run of decimal digits. -/
def digitsVal (cs : List Char) : Nat :=
  cs.foldl (fun acc c => acc * 10 + (c.toNat - Char.toNat '0')) 0

/-- Model of JavaScript `parseFloat` on an already-trimmed string: an
optional sign, then a decimal mantissa (digits, with an optional fractional
part) and an optional exponent, taken as the longest valid prefix; `none`
models `NaN` (no digit in the mantissa).  The non-finite literals
(`Infinity`) are outside the model — no claim exercises them and ℚ cannot
carry them. -/
def parseFloat (s : String) : Option ℚ :=
  let cs := s.data
  let (sign, cs) : ℚ × List Char :=
    match cs with
    | '-' :: rest => (-1, rest)
    | '+' :: rest => (1, rest)
    | _ => (1, cs)
  let intPart := cs.takeWhile Char.isDigit
  let cs1 := cs.dropWhile Char.isDigit
  let (fracPart, cs2) : List Char × List Char :=
    match cs1 with
    | '.' :: rest => (rest.takeWhile Char.isDigit, rest.dropWhile Char.isDigit)
    | _ => ([], cs1)
  if intPart.isEmpty && fracPart.isEmpty then none
  else
    let mant : ℚ := (digitsVal intPart : ℚ) + (digitsVal fracPart : ℚ) / (10 : ℚ) ^ fracPart.length
    let expo : ℤ :=
      match cs2 with
      | 'e' :: rest | 'E' :: rest =>
        let (esign, rest) : ℤ × List Char :=
          match rest with
          | '-' :: r => (-1, r)
          | '+' :: r => (1, r)
          | _ => (1, rest)
        let eds := rest.takeWhile Char.isDigit
        if eds.isEmpty then 0 else esign * (digitsVal eds : ℤ)
      | _ => 0
    some (sign * mant * (10 : ℚ) ^ expo)

/-- The component state of `ChatTagsInput`: the staging `inputValue` and
the committed `tags`. -/
structure TagsState where
  inputValue : String
  tags : List Tag
deriving Repr, DecidableEq

/-- The key events `handleKeyDown` distinguishes. -/
inductive TagKey where
  | enter : TagKey
  | comma : TagKey
  | space : TagKey
  | backspace : TagKey
  | other : TagKey
deriving Repr, DecidableEq

/-- The outcome of one tag-widget event: the new component state, the full
tag sequence submitted through `onSubmit` (if any), and whether the
`alert` warning was shown. -/
structure TagsOutcome where
  state : TagsState
  submitted : Option (List Tag)
  warned : Bool
deriving Repr, DecidableEq

/-- JavaScript `String.prototype.trim`: strip leading and trailing
whitespace.  (Defined over the character list so that it evaluates inside
the kernel.) -/
def jsTrim (s : String) : String :=
  ⟨((s.data.dropWhile Char.isWhitespace).reverse.dropWhile Char.isWhitespace).reverse⟩

/-- The tag coercion of lines 263-268: for a numeric `item_type` the token
must `parseFloat` (`none` models the `NaN` rejection), otherwise the token
stays a string. -/
def coerceTag (item_type : String) (newTagValue : String) : Option Tag :=
  if item_type = "integer" ∨ item_type = "number" then
    match parseFloat newTagValue with
    | some q => some (.num q)
    | none => none
  else some (.str newTagValue)

/-- `handleKeyDown` of `ChatTagsInput` (lines 259-281).  On a delimiter key
with a non-blank staging value: trim the token; for a numeric `item_type`,
`parseFloat` it, rejecting with an alert (state unchanged) on `NaN`; add
the coerced tag unless already present, submitting the full updated list;
clear the staging input.  On backspace with an empty staging input and a
non-empty list: drop the last tag and submit the rest. -/
def tagsHandleKeyDown (item_type : String) (s : TagsState) (key : TagKey) : TagsOutcome :=
  if (key = .enter ∨ key = .comma ∨ key = .space) ∧ ¬ (jsTrim s.inputValue = "") then
    let newTagValue := jsTrim s.inputValue
    match coerceTag item_type newTagValue with
    | none => { state := s, submitted := none, warned := true }
    | some processedTag =>
      if ¬ (processedTag ∈ s.tags) then
        let newTags := s.tags ++ [processedTag]
        { state := { inputValue := "", tags := newTags }
          submitted := some newTags, warned := false }
      else
        { state := { s with inputValue := "" }, submitted := none, warned := false }
  else if key = .backspace ∧ s.inputValue = "" ∧ s.tags.length > 0 then
    let newTags := s.tags.dropLast
    { state := { s with tags := newTags }, submitted := some newTags, warned := false }
  else
    { state := s, submitted := none, warned := false }

/-- `removeTag` of `ChatTagsInput` (lines 283-287): remove the tag at one
index and submit the full remaining sequence. -/
def removeTag (s : TagsState) (indexToRemove : Nat) : TagsOutcome :=
  let newTags := (s.tags.enum.filter (fun p => ¬ (p.1 = indexToRemove))).map Prod.snd
  { state := { s with tags := newTags }, submitted := some newTags, warned := false }

/-! ## `ChatJsonInput` (src/App.jsx lines 178-196)

The structured/JSON widget's submit handler.  `JSON.parse` is the
JavaScript builtin; the handler's control flow is parametric in it, so the
embedding takes the parse as a function argument (`none` models a thrown
`SyntaxError`). -/

/-- What `handleSubmit` passes to `onSubmit` (or withholds). -/
inductive JsonSubmitResult where
  /-- `onSubmit(parameter_name, value)` was called; `warned` records the
  invalid-JSON alert on the parse-failure path. -/
  | submit (value : JsValue) (warned : Bool) : JsonSubmitResult
  /-- The `alert("Please fix invalid JSON.")` branch: no submission. -/
  | blocked : JsonSubmitResult
deriving Repr

/-- `submittedValue === null` on the model values. -/
def isJsNull : JsValue → Bool
  | .vNull => true
  | _ => false

/-- `typeof submittedValue === 'string'` on the model values. -/
def isJsString : JsValue → Bool
  | .vStr _ => true
  | _ => false

/-- `handleSubmit` of `ChatJsonInput` (line 185): a blank field submits
`null`; a parseable field submits the parsed document; an unparseable
field alerts and stages the raw text; the final guard
`!parseError || submittedValue === null || typeof submittedValue ===
'string'` decides between submitting and the blocking alert. -/
def chatJsonHandleSubmit (jsonParse : String → Option JsValue) (value : String) :
    JsonSubmitResult :=
  let (submittedValue, parseError, warned) : JsValue × Bool × Bool :=
    if jsTrim value = "" then (.vNull, false, false)
    else
      match jsonParse value with
      | some j => (j, false, false)
      | none => (.vStr value, true, true)
  if !parseError || isJsNull submittedValue || isJsString submittedValue then
    .submit submittedValue warned
  else
    .blocked

/-! ## The catalog-failure banner (src/App.jsx line 488)

The message list renders
`{fetchError && !isLoading && <p className="error">{fetchError}</p>}`.
`isLoading` is declared nowhere in `ChatInterface` (nor at module scope),
so the identifier lookup fails whenever the `&&` chain reaches it.  The
expression is modelled by an evaluation over the render scope with
JavaScript short-circuit semantics; `none` models the `ReferenceError`. -/

/-- The error text `fetchOps` stores in `fetchError` on a catalog-fetch
failure (line 373). -/
def catalogFetchError (errMessage : String) : String :=
  "Failed to load available API operations: " ++ errMessage

/-- The identifiers actually declared in `ChatInterface`'s render scope
(lines 350-470) and at module scope (lines 14-25). -/
def chatInterfaceScope : List String :=
  ["messages", "isAssistantTyping", "currentInteractionDisabled",
   "availableOperations", "fetchError", "currentApiOperation", "chatEndRef",
   "scrollToBottom", "addMessage", "handleUserInput", "handleDynamicInputSubmit",
   "renderDynamicComponent",
   "API_BASE_URL", "CHAT_ENDPOINT", "OPERATIONS_ENDPOINT", "USER_ID", "logger",
   "fetchApi", "ChatTextInput", "ChatDropdown", "ChatNumberInput", "ChatCheckbox",
   "ChatDatePickerNative", "ChatJsonInput", "ChatDateTimePicker", "ChatTagsInput",
   "OperationSelector", "ChatInterface"]

/-- The render-scope environment of `ChatInterface` for a given state:
`fetchError` evaluates to its state value (`null` or the stored string);
every other declared identifier evaluates to some value (the banner
expression never reads it, so a placeholder object stands in); an
undeclared identifier fails to evaluate (`ReferenceError`). -/
def chatInterfaceEnv (s : ChatState) (name : String) : Option JsValue :=
  if name = "fetchError" then
    some (match s.fetchError with
      | none => .vNull
      | some e => .vStr e)
  else if chatInterfaceScope.contains name then some (.vObj [])
  else none

/-- Evaluation of the banner guard `fetchError && !isLoading && <p/>`
under an environment, with JavaScript short-circuiting: a falsy operand is
the chain's value and stops evaluation; `none` models a `ReferenceError`
raised by an operand's identifier lookup.  The final `<p/>` element is
represented by a placeholder object. -/
def evalBannerGuard (env : String → Option JsValue) : Option JsValue := do
  let fe ← env "fetchError"
  if !(jsTruthy fe) then pure fe
  else do
    let il ← env "isLoading"
    let notIl := JsValue.vBool (!(jsTruthy il))
    if !(jsTruthy notIl) then pure notIl
    else pure (.vObj [("element", .vStr "banner")])

/-! ## Trace ordering

The payload-free view of an effect trace, and the ordering discipline the
spec demands of one `handleUserInput` run: the user message (when one is
produced) and the lock precede the network call; the unlock, when it
happens, comes only after the call resolved and the reply or error message
was appended; no further user action or second call occurs in the run. -/

inductive ETag where
  | userMsg : ETag
  | assistMsg : ETag
  | lock : ETag
  | unlock : ETag
  | call : ETag
  | resolved : ETag
deriving Repr, DecidableEq

def tagOf : Effect → ETag
  | .appendMsg .user _ => .userMsg
  | .appendMsg .assistant _ => .assistMsg
  | .lockInput => .lock
  | .unlockInput => .unlock
  | .netCallStart _ => .call
  | .netResolved => .resolved

/-- Scans a suffix of the trace: an `unlock` is admissible only once an
assistant message (the reply or the surfaced error) has been seen. -/
def unlockAfterReply : Bool → List ETag → Bool
  | _, [] => true
  | _, .assistMsg :: rest => unlockAfterReply true rest
  | seen, .unlock :: rest => seen && unlockAfterReply seen rest
  | seen, _ :: rest => unlockAfterReply seen rest

/-- The ordering discipline of one run's trace.  When a network call
occurs: before it there is a lock and no unlock; after it there is no
further user message and no second call, the call's resolution precedes
everything after it, and an unlock appears only after the appended
reply/error message. -/
def orderedOk (tr : List ETag) : Bool :=
  if tr.contains .call then
    let pre := tr.takeWhile (fun t => !(t = .call))
    let post := (tr.dropWhile (fun t => !(t = .call))).drop 1
    pre.contains .lock && !(pre.contains .unlock) && !(post.contains .userMsg) &&
      !(post.contains .call) &&
      (match post with
       | .resolved :: _ => true
       | _ => false) &&
      unlockAfterReply false post
  else true

/-! ## Concrete states used by the closed evaluations -/

/-- The `Create Pet` catalog entry of the spec's scenario A. -/
def petsOp : Operation :=
  { id := "op1", method := "post", path := "/pets", summary := "Create Pet" }

/-- The greeting appended on mount (lines 468-470). -/
def greetingMsg : Message where
  id := 0
  sender := .assistant
  content := .instr
    { prompt := some "Hello! Please select an API operation above to begin."
      ui_component := none }

/-- An idle state: greeting appended, catalog loaded, nothing bound. -/
def exampleIdleState : ChatState :=
  { messages := [greetingMsg]
    isAssistantTyping := false
    currentInteractionDisabled := false
    availableOperations := [petsOp]
    fetchError := none
    currentApiOperation := none
    nextMsgId := 1 }

/-- A mid-flow state: the `/pets` operation is bound and input is free
(awaiting the next widget submission). -/
def exampleBoundState : ChatState :=
  { exampleIdleState with
    currentApiOperation := some { path := "/pets", method := "post" } }

/-- A state in which the catalog fetch has failed with an HTTP 500. -/
def failedCatalogState : ChatState :=
  { exampleIdleState with fetchError := some (catalogFetchError "API Error: 500") }

/-- An instruction carrying a widget of an unknown kind, for the closed
evaluations. -/
def hologramInstr : InstructionContent :=
  { prompt := some "Pick one"
    ui_component := some { type := "hologram", parameter_name := "p" } }

/-- The `case` labels of the widget switch (lines 454-461). -/
def knownWidgetKinds : List String :=
  ["text_input", "dropdown", "number_input", "checkbox", "date_picker",
   "json_input", "datetime_picker", "tags_input"]

/-! ## Theorems -/

/-- Helper: the loc/msg template applied to a well-formed `{loc, msg}`
pair object. -/
theorem jsToString_vStr (s : String) : jsToString (.vStr s) = s := rfl

theorem formatErrItem_mkLocMsg (p : List String × String) :
    formatErrItem (mkLocMsg p) = String.intercalate "." p.1 ++ ": " ++ p.2 := by
  simp [formatErrItem, mkLocMsg, getField, List.map_map, Function.comp_def,
    jsToString_vStr]

/-- **C3.** For every HTTP response with status outside 2xx whose body
carries a `detail` field that is an array of `{loc, msg}` pairs, the
surfaced error text equals the pairs mapped to `<loc joined with "."}: <msg>`
and joined with `"; "`; and a 204 response is returned as a `null` result,
never parsed as JSON (the body is returned as `null` whatever it holds). -/
theorem fetchApi_detail_and_204 :
    (∀ (status : Nat) (pairs : List (List String × String)),
      ¬ (200 ≤ status ∧ status ≤ 299) →
      fetchApi { status := status, body := some (detailArrayBody pairs) } =
        .error (String.intercalate "; "
          (pairs.map (fun p => String.intercalate "." p.1 ++ ": " ++ p.2)))) ∧
    (∀ body : Option JsValue, fetchApi { status := 204, body := body } = .ok none) := by
  constructor
  · intro status pairs h
    simp only [fetchApi, h, if_true, not_false_iff]
    simp [errorDetailOf, detailArrayBody, getField, List.map_map, Function.comp_def,
      formatErrItem_mkLocMsg]
  · intro body
    simp [fetchApi]

/-- Witness for C3: the spec's scenario E (a 422 whose `detail` is
`[{loc: ["body", "priority"], msg: "must be >=1"}]` surfaces exactly
`body.priority: must be >=1`), and a 204 with an unparseable body passed
through as `null`. -/
theorem fetchApi_detail_and_204_witness :
    fetchApi { status := 422, body := some (detailArrayBody [(["body", "priority"], "must be >=1")]) } =
      .error "body.priority: must be >=1" ∧
    fetchApi { status := 204, body := none } = .ok none := by
  constructor
  · exact (fetchApi_detail_and_204.1 422 [(["body", "priority"], "must be >=1")]
      (by decide)).trans (by rfl)
  · exact fetchApi_detail_and_204.2 none

/-- **C4.** For every reply of type `final_message` or `error_message`
received for an outstanding widget submission (the Collecting round trip),
the controller appends exactly one assistant message carrying the reply's
text and no widget, clears the bound operation, unlocks input, and clears
the typing flag — so the operation selector's disable guard is false again
and a new operation can be selected (Terminal behaves like Idle). -/
theorem finalOrError_terminates :
    ∀ (s : ChatState) (pName : String) (v : JsValue) (txt : String),
      (∀ ty, ty = "final_message" ∨ ty = "error_message" →
        (handleUserInput (.parameter pName v) s
            (.success { type := ty, text := some txt })).1 =
          { s with
            messages := s.messages ++
              [{ id := s.nextMsgId, sender := .assistant,
                 content := .instr { prompt := some txt, ui_component := none } }]
            nextMsgId := s.nextMsgId + 1
            isAssistantTyping := false
            currentInteractionDisabled := false
            fetchError := none
            currentApiOperation := none }) ∧
      (∀ ty, ty = "final_message" ∨ ty = "error_message" →
        (let r := (handleUserInput (.parameter pName v) s
            (.success { type := ty, text := some txt })).1
         (r.isAssistantTyping || r.currentInteractionDisabled ||
           r.currentApiOperation.isSome) = false)) := by
  intro s pName v txt
  have key : ∀ ty, ty = "final_message" ∨ ty = "error_message" →
      (handleUserInput (.parameter pName v) s
          (.success { type := ty, text := some txt })).1 =
        { s with
          messages := s.messages ++
            [{ id := s.nextMsgId, sender := .assistant,
               content := .instr { prompt := some txt, ui_component := none } }]
          nextMsgId := s.nextMsgId + 1
          isAssistantTyping := false
          currentInteractionDisabled := false
          fetchError := none
          currentApiOperation := none } := by
    intro ty hty
    have hne : ¬ (ty = "ui_instruction") := by
      rcases hty with h | h <;> simp [h]
    simp [handleUserInput, resolveResponse, hne, hty, addMessage]
  refine ⟨key, ?_⟩
  intro ty hty
  simp only [key ty hty]
  simp

/-- Witness for C4: the spec's scenario C — a `final_message` reply
`Pet created` to the submission of `name = "Rex"` while `/pets` is bound. -/
theorem finalOrError_terminates_witness :
    (handleUserInput (.parameter "name" (.vStr "Rex")) exampleBoundState
        (.success { type := "final_message", text := some "Pet created" })).1 =
      { exampleBoundState with
        messages := exampleBoundState.messages ++
          [{ id := exampleBoundState.nextMsgId, sender := .assistant,
             content := .instr { prompt := some "Pet created", ui_component := none } }]
        nextMsgId := exampleBoundState.nextMsgId + 1
        isAssistantTyping := false
        currentInteractionDisabled := false
        fetchError := none
        currentApiOperation := none } :=
  (finalOrError_terminates exampleBoundState "name" (.vStr "Rex") "Pet created").1
    "final_message" (Or.inl rfl)

/-- **C5.** For every intent input whose operation lacks a resolvable HTTP
path or method (the guard of line 401), the controller performs no network
call: the run's full result is the user echo plus an assistant error
message, with input unlocked, the typing flag cleared, and the bound
operation cleared — the trace holds no `netCallStart`, so no
outstanding-request state remains. -/
theorem unmappedIntent_shortCircuits :
    ∀ (s : ChatState) (value : String) (details : Option ApiDetails)
      (outcome : NetOutcome),
      badApiDetails details = true →
      handleUserInput (.intent value details) s outcome =
        ({ s with
            messages := s.messages ++
              [{ id := s.nextMsgId, sender := .user, content := .text value },
               { id := s.nextMsgId + 1, sender := .assistant,
                 content := .instr { prompt := some (unmappedIntentText value),
                                     ui_component := none } }]
            nextMsgId := s.nextMsgId + 2
            isAssistantTyping := false
            currentInteractionDisabled := false
            fetchError := none
            currentApiOperation := none },
         [.appendMsg .user (.text value), .lockInput,
          .appendMsg .assistant (.instr { prompt := some (unmappedIntentText value),
                                          ui_component := none }),
          .unlockInput]) := by
  intro s value details outcome hbad
  cases details with
  | none =>
    simp [handleUserInput, unmappedIntentStep, addMessage]
  | some d =>
    simp only [badApiDetails, Bool.or_eq_true, decide_eq_true_eq] at hbad
    simp [handleUserInput, hbad, unmappedIntentStep, addMessage]

/-- Witness for C5: an intent whose `apiDetails` is absent, from the idle
example state. -/
theorem unmappedIntent_shortCircuits_witness :
    badApiDetails none = true ∧
    handleUserInput (.intent "Create Pet" none) exampleIdleState
        (.success { type := "ui_instruction" }) =
      ({ exampleIdleState with
          messages := exampleIdleState.messages ++
            [{ id := exampleIdleState.nextMsgId, sender := .user,
               content := .text "Create Pet" },
             { id := exampleIdleState.nextMsgId + 1, sender := .assistant,
               content := .instr { prompt := some (unmappedIntentText "Create Pet"),
                                   ui_component := none } }]
          nextMsgId := exampleIdleState.nextMsgId + 2
          isAssistantTyping := false
          currentInteractionDisabled := false
          fetchError := none
          currentApiOperation := none },
       [.appendMsg .user (.text "Create Pet"), .lockInput,
        .appendMsg .assistant (.instr { prompt := some (unmappedIntentText "Create Pet"),
                                        ui_component := none }),
        .unlockInput]) :=
  ⟨rfl, unmappedIntent_shortCircuits exampleIdleState "Create Pet" none
    (.success { type := "ui_instruction" }) rfl⟩

/-- **C6.** Whenever a bound operation is set or input is locked, operation
selection is rejected: the state is unchanged and the trace is empty (no
user message appended, no network call) — in particular, selecting the
already-bound operation again is such a rejected selection, hence a no-op. -/
theorem selectOperation_guard :
    ∀ (s : ChatState) (opId : String) (outcome : NetOutcome),
      s.currentApiOperation.isSome = true ∨ s.currentInteractionDisabled = true →
      selectOperation s opId outcome = (s, []) := by
  intro s opId outcome h
  rcases h with h | h <;> simp [selectOperation, h]

/-- Witness for C6: re-selecting `op1` while `/pets` — the very operation
`op1` maps to — is already bound is a no-op. -/
theorem selectOperation_guard_witness :
    exampleBoundState.currentApiOperation.isSome = true ∧
    selectOperation exampleBoundState "op1"
        (.success { type := "ui_instruction" }) = (exampleBoundState, []) :=
  ⟨rfl, selectOperation_guard exampleBoundState "op1"
    (.success { type := "ui_instruction" }) (Or.inl rfl)⟩

/-- **C1.** The unknown-response branch of `handleUserInput` (the `else` of
line 422) is an empty placeholder comment: at a concrete chat round trip
whose response body has the unrecognized type `"surprise"`, the controller
appends no message, leaves input locked, and keeps the bound operation
(only the typing indicator is cleared by the `finally`) — the fail-safe
Terminal transition with a generic "unexpected response" message that the
spec prescribes does not happen, and the conversation is left stuck. -/
theorem unknownResponse_leavesStateStuck :
    (handleUserInput (.parameter "name" (.vStr "Rex")) exampleBoundState
        (.success { type := "surprise" })).1 =
      { exampleBoundState with
        isAssistantTyping := false
        currentInteractionDisabled := true
        fetchError := none } ∧
    (handleUserInput (.parameter "name" (.vStr "Rex")) exampleBoundState
        (.success { type := "surprise" })).2 =
      [.lockInput,
       .netCallStart (.parameterBody USER_ID "name" (.vStr "Rex")),
       .netResolved] := by
  constructor <;> rfl

/-- **C2.** For every user input handled by the dialogue controller, the
run's effect trace is ordered as the spec demands: the user message (when
one is produced) and the input lock precede the network call; input stays
locked from the call's start until the reply or error message is appended
(an unlock appears only after that append); no further user message and no
second call occur in the run.  Moreover no widget submission is accepted
while the lock is held: dispatching one is a no-op. -/
theorem handleUserInput_ordering :
    (∀ (input : UserInput) (s : ChatState) (outcome : NetOutcome),
      orderedOk (((handleUserInput input s outcome).2).map tagOf) = true) ∧
    (∀ (s : ChatState) (pName : String) (v : JsValue) (outcome : NetOutcome),
      s.currentInteractionDisabled = true →
      widgetSubmit s pName v outcome = (s, [])) := by
  constructor
  · intro input s outcome
    cases input with
    | intent value apiDetails =>
      cases apiDetails with
      | none => cases outcome <;> rfl
      | some d =>
        by_cases hpm : d.path = "" ∨ d.method = ""
        · simp only [handleUserInput, if_pos hpm]
          rfl
        · cases outcome with
          | failure m =>
            simp only [handleUserInput, if_neg hpm, resolveResponse]
            rfl
          | success resp =>
            by_cases h1 : resp.type = "ui_instruction"
            · simp only [handleUserInput, if_neg hpm, resolveResponse, if_pos h1]
              rfl
            · by_cases h2 : resp.type = "final_message" ∨ resp.type = "error_message"
              · simp only [handleUserInput, if_neg hpm, resolveResponse, if_neg h1, if_pos h2]
                rfl
              · simp only [handleUserInput, if_neg hpm, resolveResponse, if_neg h1, if_neg h2]
                rfl
    | parameter pName v =>
      cases outcome with
      | failure m =>
        simp only [handleUserInput, resolveResponse]
        rfl
      | success resp =>
        by_cases h1 : resp.type = "ui_instruction"
        · simp only [handleUserInput, resolveResponse, if_pos h1]
          rfl
        · by_cases h2 : resp.type = "final_message" ∨ resp.type = "error_message"
          · simp only [handleUserInput, resolveResponse, if_neg h1, if_pos h2]
            rfl
          · simp only [handleUserInput, resolveResponse, if_neg h1, if_neg h2]
            rfl
  · intro s pName v outcome h
    simp [widgetSubmit, h]

/-- Witness for C2: a widget submission dispatched while the lock is held
(a request outstanding) is rejected without any effect. -/
theorem handleUserInput_ordering_witness :
    { exampleBoundState with currentInteractionDisabled := true }.currentInteractionDisabled = true ∧
    widgetSubmit { exampleBoundState with currentInteractionDisabled := true }
        "name" (.vStr "Rex") (.success { type := "ui_instruction" }) =
      ({ exampleBoundState with currentInteractionDisabled := true }, []) :=
  ⟨rfl, handleUserInput_ordering.2
    { exampleBoundState with currentInteractionDisabled := true }
    "name" (.vStr "Rex") (.success { type := "ui_instruction" }) rfl⟩

/-- **C7.** The tag-list widget: every new token is trimmed before
coercion; with a numeric `itemType` a token that does not parse is rejected
with a warning and discarded, leaving the list unchanged; a token whose
coerced value equals an existing tag is silently ignored; every successful
add, explicit removal, and backspace-on-empty removal of the last tag
submits the full updated sequence immediately. -/
theorem tagsInput_behaviour :
    (∀ (it : String) (s : TagsState) (k : TagKey) (t : Tag),
      (k = .enter ∨ k = .comma ∨ k = .space) →
      ¬ (jsTrim s.inputValue = "") →
      coerceTag it (jsTrim s.inputValue) = some t →
      ¬ (t ∈ s.tags) →
      tagsHandleKeyDown it s k =
        { state := { inputValue := "", tags := s.tags ++ [t] }
          submitted := some (s.tags ++ [t]), warned := false }) ∧
    (∀ (it : String) (s : TagsState) (k : TagKey),
      (k = .enter ∨ k = .comma ∨ k = .space) →
      ¬ (jsTrim s.inputValue = "") →
      (it = "integer" ∨ it = "number") →
      parseFloat (jsTrim s.inputValue) = none →
      tagsHandleKeyDown it s k = { state := s, submitted := none, warned := true }) ∧
    (∀ (it : String) (s : TagsState) (k : TagKey) (t : Tag),
      (k = .enter ∨ k = .comma ∨ k = .space) →
      ¬ (jsTrim s.inputValue = "") →
      coerceTag it (jsTrim s.inputValue) = some t →
      t ∈ s.tags →
      tagsHandleKeyDown it s k =
        { state := { s with inputValue := "" }, submitted := none, warned := false }) ∧
    (∀ (it : String) (s : TagsState),
      s.inputValue = "" → s.tags.length > 0 →
      tagsHandleKeyDown it s .backspace =
        { state := { s with tags := s.tags.dropLast }
          submitted := some s.tags.dropLast, warned := false }) ∧
    (∀ (s : TagsState) (i : Nat),
      (removeTag s i).submitted = some (removeTag s i).state.tags) := by
  refine ⟨?_, ?_, ?_, ?_, ?_⟩
  · intro it s k t hk hb hc hmem
    simp [tagsHandleKeyDown, hk, hb, hc, hmem]
  · intro it s k hk hb hit hpf
    have hc : coerceTag it (jsTrim s.inputValue) = none := by
      simp [coerceTag, hit, hpf]
    simp [tagsHandleKeyDown, hk, hb, hc]
  · intro it s k t hk hb hc hmem
    simp [tagsHandleKeyDown, hk, hb, hc, hmem]
  · intro it s hb hn
    have hnotdelim : ¬ ((TagKey.backspace = .enter ∨ TagKey.backspace = .comma ∨
        TagKey.backspace = .space) ∧ ¬ (jsTrim s.inputValue = "")) := by
      simp
    simp [tagsHandleKeyDown, hb, hn]
  · intro s i
    simp [removeTag]

/-- Witness for C7: the spec's scenario D with `itemType = "integer"` —
typing `12` then a comma commits the number `12` and submits `[12]`;
typing `abc` then a comma is rejected with a warning and leaves the
committed list unchanged. -/
theorem tagsInput_behaviour_witness :
    tagsHandleKeyDown "integer" { inputValue := "12", tags := [] } .comma =
      { state := { inputValue := "", tags := [.num 12] }
        submitted := some [.num 12], warned := false } ∧
    tagsHandleKeyDown "integer" { inputValue := "abc", tags := [.num 12] } .comma =
      { state := { inputValue := "abc", tags := [.num 12] }
        submitted := none, warned := true } := by
  have hpf12 : parseFloat (jsTrim "12") = some 12 := by
    have h : parseFloat (jsTrim "12") =
        some ((1 : ℚ) * (((12 : ℕ) : ℚ) + ((0 : ℕ) : ℚ) / (10 : ℚ) ^ (0 : ℕ)) *
          (10 : ℚ) ^ (0 : ℤ)) := rfl
    rw [h]; norm_num
  constructor
  · exact tagsInput_behaviour.1 "integer" { inputValue := "12", tags := [] } .comma
      (.num 12) (Or.inr (Or.inl rfl)) (by decide)
      (by simp [coerceTag, hpf12]) (by simp)
  · exact tagsInput_behaviour.2.1 "integer" { inputValue := "abc", tags := [.num 12] }
      .comma (Or.inr (Or.inl rfl)) (by decide) (Or.inl rfl) rfl

/-- Helper: a tag outside the switch's `case` labels falls to the
`default` arm. -/
theorem dispatchWidget_unknown (t : String) (h : ¬ (t ∈ knownWidgetKinds)) :
    dispatchWidget t = .unsupported t := by
  simp only [knownWidgetKinds, List.mem_cons, List.not_mem_nil, or_false, not_or] at h
  obtain ⟨h1, h2, h3, h4, h5, h6, h7, h8⟩ := h
  simp [dispatchWidget, h1, h2, h3, h4, h5, h6, h7, h8]

/-- **C8.** `renderDynamicComponent` is a total function of the message
content (it carries no conversation state, so the phase is unaffected by
construction): an instruction with neither a usable (truthy) prompt nor a
widget — including an entirely nullish content — renders the visible
`[Invalid Message Format]` marker rather than throwing or dropping the
message; and an instruction whose widget `type` is outside the known set
renders a visible unsupported-widget marker carrying the unknown tag,
instead of failing the whole render. -/
theorem render_markers :
    (∀ c : InstructionContent, promptTruthy c.prompt = false → c.ui_component = none →
      renderDynamicComponent (.instr c) = .invalidFormat) ∧
    renderDynamicComponent .undef = .invalidFormat ∧
    (∀ (c : InstructionContent) (w : UiComponent),
      c.ui_component = some w → ¬ (w.type ∈ knownWidgetKinds) →
      renderDynamicComponent (.instr c) =
        .promptAndWidget (if promptTruthy c.prompt then c.prompt else none)
          (.unsupported w.type)) := by
  refine ⟨?_, rfl, ?_⟩
  · intro c h1 h2
    simp [renderDynamicComponent, h1, h2]
  · intro c w hw hk
    simp [renderDynamicComponent, hw, dispatchWidget_unknown w.type hk]

/-- Witness for C8: the spec's scenario F (`{prompt: null, widget: null}`
renders the malformed-message marker), and an instruction carrying a
widget of the unknown kind `hologram` renders the unsupported marker with
that tag. -/
theorem render_markers_witness :
    renderDynamicComponent (.instr { prompt := none, ui_component := none }) =
      .invalidFormat ∧
    renderDynamicComponent (.instr hologramInstr) =
      .promptAndWidget (some "Pick one") (.unsupported "hologram") :=
  ⟨render_markers.1 { prompt := none, ui_component := none } rfl rfl,
   render_markers.2.2 hologramInstr { type := "hologram", parameter_name := "p" }
     rfl (by decide)⟩

/-- **C9.** For every explicit submit of the structured (JSON) widget, and
whatever `JSON.parse` does on the text, submission is never blocked: the
blocking branch is unreachable; a blank field submits the explicit `null`,
a parseable field submits the parsed document, and an unparseable
non-blank field submits the raw text with a warning. -/
theorem chatJsonSubmit_neverBlocked :
    ∀ (jsonParse : String → Option JsValue) (value : String),
      (¬ (chatJsonHandleSubmit jsonParse value = .blocked)) ∧
      (jsTrim value = "" →
        chatJsonHandleSubmit jsonParse value = .submit .vNull false) ∧
      (∀ j, ¬ (jsTrim value = "") → jsonParse value = some j →
        chatJsonHandleSubmit jsonParse value = .submit j false) ∧
      (¬ (jsTrim value = "") → jsonParse value = none →
        chatJsonHandleSubmit jsonParse value = .submit (.vStr value) true) := by
  intro jsonParse value
  refine ⟨?_, ?_, ?_, ?_⟩
  · by_cases hb : jsTrim value = ""
    · simp [chatJsonHandleSubmit, hb]
    · cases hp : jsonParse value with
      | some j =>
        simp only [chatJsonHandleSubmit, hb, if_neg hb, hp]
        simp
      | none =>
        simp [chatJsonHandleSubmit, hb, hp, isJsString]
  · intro hb
    simp [chatJsonHandleSubmit, hb]
  · intro j hb hp
    simp [chatJsonHandleSubmit, hb, hp]
  · intro hb hp
    simp [chatJsonHandleSubmit, hb, hp, isJsString]

/-- Witness for C9: with a parse that rejects everything, a non-blank
field still submits (the raw text, with the warning), and a blank field
submits `null`. -/
theorem chatJsonSubmit_neverBlocked_witness :
    chatJsonHandleSubmit (fun _ => none) "not json" = .submit (.vStr "not json") true ∧
    chatJsonHandleSubmit (fun _ => none) "" = .submit .vNull false :=
  ⟨(chatJsonSubmit_neverBlocked (fun _ => none) "not json").2.2.2 (by decide) rfl,
   (chatJsonSubmit_neverBlocked (fun _ => none) "").2.1 rfl⟩

/-- Helper: the text stored in `fetchError` on a catalog failure is never
the empty string, so it is truthy. -/
theorem catalogFetchError_ne_empty (m : String) : ¬ (catalogFetchError m = "") := by
  intro h
  have hl := congrArg String.length h
  simp [catalogFetchError, String.length_append] at hl
  exact absurd hl.1 (by decide)

/-- **C10.** In every state in which the catalog fetch has failed
(`fetchError` holds the stored failure text), evaluating the message-list
banner `fetchError && !isLoading && <p/>` reaches the identifier
`isLoading`, which is declared nowhere in the component or module scope,
so the evaluation fails (`none` — the `ReferenceError`): the banner render
is not a total function of the state.  When no fetch error is stored, the
chain short-circuits at the falsy `fetchError` and evaluates without
error. -/
theorem bannerRender_partial :
    (∀ (s : ChatState) (m : String),
      s.fetchError = some (catalogFetchError m) →
      evalBannerGuard (chatInterfaceEnv s) = none) ∧
    (∀ s : ChatState, s.fetchError = none →
      evalBannerGuard (chatInterfaceEnv s) = some .vNull) := by
  constructor
  · intro s m h
    have hil : chatInterfaceEnv s "isLoading" = none := rfl
    simp [evalBannerGuard, chatInterfaceEnv, h, jsTruthy,
      catalogFetchError_ne_empty m, hil]
    decide
  · intro s h
    simp [evalBannerGuard, chatInterfaceEnv, h, jsTruthy]

/-- Witness for C10: in the concrete failed-catalog state the banner
evaluation errors out. -/
theorem bannerRender_partial_witness :
    evalBannerGuard (chatInterfaceEnv failedCatalogState) = none :=
  bannerRender_partial.1 failedCatalogState "API Error: 500" rfl
